import Mathlib

/-!
# cryptohub: the provider interfaces of `csp.go`

`csp.go` declares six interfaces and nothing else: `Key`, `KeyGenOpts`,
`KeyGenerator`, `Signer`, `Verifier` and `CSP`.  The file has no function body.

The development has two layers.

* The declarations themselves, as data (`InterfaceDecl`): method names,
  parameter and result types, and Go's rule for when a type implements an
  interface (its method set contains the interface's method set).
* The values of the interface types (`Key`, `KeyGenOpts`, `CSP ρ`, ...): an
  interface value is a receiver together with the functions its dynamic type
  supplies for the declared methods.  A method body is arbitrary Go code, so
  a call is a function of the receiver that either does not return or gives
  the declared results and the receiver after the call (`Call`).
-/

namespace Cryptohub

/-! ## Layer 1: the declarations -/

/-- Types that occur in the method signatures of `csp.go`. -/
inductive GoType where
  /-- `[]byte` -/
  | byteSlice
  /-- `bool` -/
  | bool
  /-- `string` -/
  | string
  /-- The predeclared interface `error`. -/
  | error
  /-- An interface type declared in the package, by name. -/
  | iface (name : String)
  deriving DecidableEq, Repr

/-- One method line of an interface declaration: the method name, then the
parameters and the results in order, each with its declared name (the empty
string where the source gives none). -/
structure MethodSpec where
  name : String
  params : List (String × GoType)
  results : List (String × GoType)
  deriving DecidableEq, Repr

/-- A function type as Go compares it: parameter and result types in order,
parameter and result names dropped. -/
structure FuncType where
  params : List GoType
  results : List GoType
  deriving DecidableEq, Repr

/-- The function type of a method specification. -/
def MethodSpec.funcType (m : MethodSpec) : FuncType :=
  ⟨m.params.map Prod.snd, m.results.map Prod.snd⟩

/-- An interface declaration: its name and its method lines in source order. -/
structure InterfaceDecl where
  name : String
  methods : List MethodSpec
  deriving DecidableEq, Repr

/-- The method set of an interface: every method name with its function type. -/
def InterfaceDecl.methodSet (I : InterfaceDecl) : List (String × FuncType) :=
  I.methods.map fun m => (m.name, m.funcType)

/-- The method line named `n`, when the interface declares one. -/
def InterfaceDecl.method? (I : InterfaceDecl) (n : String) : Option MethodSpec :=
  I.methods.find? fun m => m.name == n

/-- The result types of the method named `n`. -/
def InterfaceDecl.resultTypes (I : InterfaceDecl) (n : String) : Option (List GoType) :=
  (I.method? n).map fun m => m.funcType.results

/-- Go's implements relation: a type whose method set is `T` implements the
interface `I` when `T` contains every method of `I` with an identical
function type. -/
def Implements (T : List (String × FuncType)) (I : InterfaceDecl) : Prop :=
  ∀ m ∈ I.methodSet, m ∈ T

instance (T : List (String × FuncType)) (I : InterfaceDecl) : Decidable (Implements T I) := by
  unfold Implements; infer_instance

/-- `type Key interface` (csp.go, lines 4 to 20). -/
def KeyDecl : InterfaceDecl :=
  { name := "Key"
    methods :=
      [ ⟨"Bytes", [], [("", .byteSlice), ("", .error)]⟩,
        ⟨"Symmetric", [], [("", .bool)]⟩,
        ⟨"Private", [], [("", .bool)]⟩,
        ⟨"PublicKey", [], [("", .iface "Key"), ("", .error)]⟩ ] }

/-- `type KeyGenOpts interface` (csp.go, lines 23 to 26). -/
def KeyGenOptsDecl : InterfaceDecl :=
  { name := "KeyGenOpts"
    methods := [ ⟨"Algorithm", [], [("", .string)]⟩ ] }

/-- `type KeyGenerator interface` (csp.go, lines 29 to 32). -/
def KeyGeneratorDecl : InterfaceDecl :=
  { name := "KeyGenerator"
    methods :=
      [ ⟨"KeyGen", [("opts", .iface "KeyGenOpts")], [("k", .iface "Key"), ("err", .error)]⟩ ] }

/-- `type Signer interface` (csp.go, lines 35 to 42). -/
def SignerDecl : InterfaceDecl :=
  { name := "Signer"
    methods :=
      [ ⟨"Sign", [("k", .iface "Key"), ("digest", .byteSlice)],
          [("signature", .byteSlice), ("err", .error)]⟩ ] }

/-- `type Verifier interface` (csp.go, lines 45 to 49). -/
def VerifierDecl : InterfaceDecl :=
  { name := "Verifier"
    methods :=
      [ ⟨"Verify", [("k", .iface "Key"), ("digest", .byteSlice), ("signature", .byteSlice)],
          [("valid", .bool), ("err", .error)]⟩ ] }

/-- `type CSP interface` (csp.go, lines 53 to 67).  The source writes the
three methods out; it does not embed the role interfaces by name. -/
def CSPDecl : InterfaceDecl :=
  { name := "CSP"
    methods :=
      [ ⟨"KeyGen", [("opts", .iface "KeyGenOpts")], [("k", .iface "Key"), ("err", .error)]⟩,
        ⟨"Sign", [("k", .iface "Key"), ("digest", .byteSlice)],
          [("signature", .byteSlice), ("err", .error)]⟩,
        ⟨"Verify", [("k", .iface "Key"), ("digest", .byteSlice), ("signature", .byteSlice)],
          [("valid", .bool), ("err", .error)]⟩ ] }

/-! ## Layer 2: the values -/

/-- One byte. -/
abbrev Byte := Fin 256

/-- A `[]byte`.  The nil slice and the empty slice are both `[]`. -/
abbrev ByteSlice := List Byte

/-- A non-nil `error`, by the text its `Error()` method gives.  The type
`error` itself, which may be nil, is `Option GoError`. -/
abbrev GoError := String

/-- A method call on a receiver of type `ρ` with declared results `α`: `none`
when the call does not return (the body panics or runs forever), otherwise
the results and the receiver after the call.  Nothing in an interface
declaration keeps a method body from writing to its receiver, reading state
it wrote earlier, or panicking. -/
abbrev Call (ρ : Type) (α : Type u) : Type u := ρ → Option (α × ρ)

/-- The functions a dynamic type with receiver type `σ` supplies for the four
methods of `Key`.  A `Key` result is another receiver of the same table, or
nil: a program with several key types has their sum as `σ`. -/
structure KeyMethods (σ : Type) where
  /-- `Bytes() ([]byte, error)` -/
  Bytes : Call σ (ByteSlice × Option GoError)
  /-- `Symmetric() bool` -/
  Symmetric : Call σ Bool
  /-- `Private() bool` -/
  Private : Call σ Bool
  /-- `PublicKey() (Key, error)` -/
  PublicKey : Call σ (Option σ × Option GoError)

/-- A non-nil value of interface type `Key`: a receiver and the method table
of its dynamic type.  The interface type itself, which may be nil, is
`Option Key`. -/
structure Key where
  /-- The receiver type. -/
  T : Type
  /-- The method table of the dynamic type. -/
  methods : KeyMethods T
  /-- The receiver. -/
  self : T

/-- The key `k` with its receiver replaced by `s`: the same object after a
call has run. -/
def Key.withSelf (k : Key) (s : k.T) : Key :=
  ⟨k.T, k.methods, s⟩

/-- The call `k.Bytes()`: its two results and the key after the call. -/
def Key.Bytes (k : Key) : Option ((ByteSlice × Option GoError) × Key) :=
  (k.methods.Bytes k.self).map fun r => (r.1, k.withSelf r.2)

/-- The call `k.Symmetric()`: its result and the key after the call. -/
def Key.Symmetric (k : Key) : Option (Bool × Key) :=
  (k.methods.Symmetric k.self).map fun r => (r.1, k.withSelf r.2)

/-- The call `k.Private()`: its result and the key after the call. -/
def Key.Private (k : Key) : Option (Bool × Key) :=
  (k.methods.Private k.self).map fun r => (r.1, k.withSelf r.2)

/-- The call `k.PublicKey()`: its two results and the key after the call. -/
def Key.PublicKey (k : Key) : Option ((Option Key × Option GoError) × Key) :=
  (k.methods.PublicKey k.self).map fun r =>
    ((r.1.1.map k.withSelf, r.1.2), k.withSelf r.2)

/-- A non-nil value of interface type `KeyGenOpts`, by what its one method
`Algorithm() string` returns. -/
structure KeyGenOpts where
  /-- `Algorithm() string` -/
  Algorithm : String

/-- `type KeyGenerator interface`, for a dynamic type with receiver type `ρ`. -/
structure KeyGenerator (ρ : Type) where
  /-- `KeyGen(opts KeyGenOpts) (k Key, err error)` -/
  KeyGen : Option KeyGenOpts → Call ρ (Option Key × Option GoError)

/-- `type Signer interface`, for a dynamic type with receiver type `ρ`. -/
structure Signer (ρ : Type) where
  /-- `Sign(k Key, digest []byte) (signature []byte, err error)` -/
  Sign : Option Key → ByteSlice → Call ρ (ByteSlice × Option GoError)

/-- `type Verifier interface`, for a dynamic type with receiver type `ρ`. -/
structure Verifier (ρ : Type) where
  /-- `Verify(k Key, digest, signature []byte) (valid bool, err error)` -/
  Verify : Option Key → ByteSlice → ByteSlice → Call ρ (Bool × Option GoError)

/-- `type CSP interface`, for a dynamic type with receiver type `ρ`. -/
structure CSP (ρ : Type) where
  /-- `KeyGen(opts KeyGenOpts) (k Key, err error)` -/
  KeyGen : Option KeyGenOpts → Call ρ (Option Key × Option GoError)
  /-- `Sign(k Key, digest []byte) (signature []byte, err error)` -/
  Sign : Option Key → ByteSlice → Call ρ (ByteSlice × Option GoError)
  /-- `Verify(k Key, digest, signature []byte) (valid bool, err error)` -/
  Verify : Option Key → ByteSlice → ByteSlice → Call ρ (Bool × Option GoError)

/-- A `CSP` value used where a `KeyGenerator` is expected. -/
def CSP.toKeyGenerator {ρ : Type} (c : CSP ρ) : KeyGenerator ρ :=
  ⟨c.KeyGen⟩

/-- A `CSP` value used where a `Signer` is expected. -/
def CSP.toSigner {ρ : Type} (c : CSP ρ) : Signer ρ :=
  ⟨c.Sign⟩

/-- A `CSP` value used where a `Verifier` is expected. -/
def CSP.toVerifier {ρ : Type} (c : CSP ρ) : Verifier ρ :=
  ⟨c.Verify⟩

/-- A receiver type that supplies the three role operations, used where a
`CSP` is expected. -/
def CSP.ofRoles {ρ : Type} (g : KeyGenerator ρ) (s : Signer ρ) (v : Verifier ρ) : CSP ρ :=
  ⟨g.KeyGen, s.Sign, v.Verify⟩

/-! ## Two types that implement `Key` -/

/-- The method table of a key type that counts the queries made of it:

    type flipKey struct{ n int }
    func (k *flipKey) Bytes() ([]byte, error)  { return nil, errors.New("no bytes") }
    func (k *flipKey) Symmetric() bool         { k.n++; return k.n%2 == 1 }
    func (k *flipKey) Private() bool           { k.n++; return k.n%2 == 1 }
    func (k *flipKey) PublicKey() (Key, error) { return nil, errors.New("no public key") }

The receiver is the counter `n`. -/
def flipKeyMethods : KeyMethods Nat where
  Bytes n := some (([], some "no bytes"), n)
  Symmetric n := some ((n + 1) % 2 == 1, n + 1)
  Private n := some ((n + 1) % 2 == 1, n + 1)
  PublicKey n := some ((none, some "no public key"), n)

/-- The value `&flipKey{n}` as a `Key`. -/
def flipKey (n : Nat) : Key :=
  ⟨Nat, flipKeyMethods, n⟩

/-- The method table of a key type whose two queries never return:

    type abortKey struct{}
    func (abortKey) Bytes() ([]byte, error)  { return nil, errors.New("no bytes") }
    func (abortKey) Symmetric() bool         { panic("not set") }
    func (abortKey) Private() bool           { panic("not set") }
    func (abortKey) PublicKey() (Key, error) { return nil, errors.New("no public key") }
-/
def abortKeyMethods : KeyMethods Unit where
  Bytes u := some (([], some "no bytes"), u)
  Symmetric _ := none
  Private _ := none
  PublicKey u := some ((none, some "no public key"), u)

/-- The value `abortKey{}` as a `Key`. -/
def abortKey : Key :=
  ⟨Unit, abortKeyMethods, ()⟩

/-! ## The composition of the role interfaces -/

/-- A type implements an interface whose first method line is `a` exactly
when its method set contains `a` and it implements the interface of the
remaining lines. -/
theorem implements_cons (T : List (String × FuncType)) (n : String) (a : MethodSpec)
    (ms : List MethodSpec) :
    Implements T ⟨n, a :: ms⟩ ↔ (a.name, a.funcType) ∈ T ∧ Implements T ⟨n, ms⟩ := by
  simp [Implements, InterfaceDecl.methodSet]

/-- C1: the method set of `CSP` is `KeyGen`, `Sign`, `Verify`, line for line
the methods of `KeyGenerator`, `Signer` and `Verifier` and nothing else; a type
implements `CSP` exactly when it implements the three role interfaces; a `CSP`
value used as a `KeyGenerator`, `Signer` or `Verifier` gives the same results
on every input and is rebuilt from its three roles; and a receiver type that
supplies the three role operations gives a `CSP` whose operations are those
three. -/
theorem csp_is_composition_of_roles :
    CSPDecl.methods = KeyGeneratorDecl.methods ++ SignerDecl.methods ++ VerifierDecl.methods
    ∧ CSPDecl.methodSet.map Prod.fst = ["KeyGen", "Sign", "Verify"]
    ∧ (∀ T : List (String × FuncType),
        Implements T CSPDecl ↔
          Implements T KeyGeneratorDecl ∧ Implements T SignerDecl ∧ Implements T VerifierDecl)
    ∧ (∀ (ρ : Type) (c : CSP ρ),
        (∀ opts r, c.toKeyGenerator.KeyGen opts r = c.KeyGen opts r)
        ∧ (∀ k d r, c.toSigner.Sign k d r = c.Sign k d r)
        ∧ (∀ k d s r, c.toVerifier.Verify k d s r = c.Verify k d s r)
        ∧ CSP.ofRoles c.toKeyGenerator c.toSigner c.toVerifier = c)
    ∧ (∀ (ρ : Type) (g : KeyGenerator ρ) (s : Signer ρ) (v : Verifier ρ),
        (CSP.ofRoles g s v).KeyGen = g.KeyGen
        ∧ (CSP.ofRoles g s v).Sign = s.Sign
        ∧ (CSP.ofRoles g s v).Verify = v.Verify
        ∧ (CSP.ofRoles g s v).toKeyGenerator = g
        ∧ (CSP.ofRoles g s v).toSigner = s
        ∧ (CSP.ofRoles g s v).toVerifier = v) := by
  refine ⟨by decide, by decide, ?_, ?_, ?_⟩
  · intro T
    simp only [CSPDecl, KeyGeneratorDecl, SignerDecl, VerifierDecl, implements_cons]
    constructor
    · rintro ⟨hg, hs, hv, hnil⟩
      exact ⟨⟨hg, hnil⟩, ⟨hs, hnil⟩, ⟨hv, hnil⟩⟩
    · rintro ⟨⟨hg, _⟩, ⟨hs, _⟩, ⟨hv, hnil⟩⟩
      exact ⟨hg, hs, hv, hnil⟩
  · intro ρ c
    exact ⟨fun _ _ => rfl, fun _ _ _ => rfl, fun _ _ _ _ => rfl, rfl⟩
  · intro ρ g s v
    exact ⟨rfl, rfl, rfl, rfl, rfl, rfl⟩

/-! ## The capability queries of a key -/

/-- C9, as the declaration has it: `Symmetric` and `Private` take no argument
and return one `bool`, with no `error` among their results, while `Bytes` and
`PublicKey` return a value paired with an `error`. -/
theorem key_queries_return_plain_bool :
    (KeyDecl.method? "Symmetric").map MethodSpec.funcType = some ⟨[], [GoType.bool]⟩
    ∧ (KeyDecl.method? "Private").map MethodSpec.funcType = some ⟨[], [GoType.bool]⟩
    ∧ KeyDecl.resultTypes "Bytes" = some [GoType.byteSlice, GoType.error]
    ∧ KeyDecl.resultTypes "PublicKey" = some [GoType.iface "Key", GoType.error] :=
  ⟨by decide, by decide, by decide, by decide⟩

/-- C9 as stated fails: the declaration makes the two queries neither pure
nor total.  On `flipKey` the first call of `Symmetric` returns true and the
second returns false, and the same for `Private`; on `abortKey` neither call
returns.  So it is not true of every `Key` that a query returns a boolean and
returns the same boolean when called again. -/
theorem key_queries_need_not_repeat :
    (flipKey 0).Symmetric = some (true, flipKey 1)
    ∧ (flipKey 1).Symmetric = some (false, flipKey 2)
    ∧ (flipKey 0).Private = some (true, flipKey 1)
    ∧ (flipKey 1).Private = some (false, flipKey 2)
    ∧ abortKey.Symmetric = none
    ∧ abortKey.Private = none
    ∧ ¬ (∀ k : Key, ∃ b k₁ k₂, k.Symmetric = some (b, k₁) ∧ k₁.Symmetric = some (b, k₂))
    ∧ ¬ (∀ k : Key, ∃ b k₁ k₂, k.Private = some (b, k₁) ∧ k₁.Private = some (b, k₂)) := by
  have hS0 : (flipKey 0).Symmetric = some (true, flipKey 1) := rfl
  have hS1 : (flipKey 1).Symmetric = some (false, flipKey 2) := rfl
  have hP0 : (flipKey 0).Private = some (true, flipKey 1) := rfl
  have hP1 : (flipKey 1).Private = some (false, flipKey 2) := rfl
  refine ⟨hS0, hS1, hP0, hP1, rfl, rfl, ?_, ?_⟩
  · intro h
    obtain ⟨b, k₁, k₂, h₁, h₂⟩ := h (flipKey 0)
    rw [hS0] at h₁
    obtain ⟨hb, hk⟩ := Prod.mk.inj (Option.some.inj h₁)
    subst hb hk
    rw [hS1] at h₂
    exact Bool.noConfusion (Prod.mk.inj (Option.some.inj h₂)).1
  · intro h
    obtain ⟨b, k₁, k₂, h₁, h₂⟩ := h (flipKey 0)
    rw [hP0] at h₁
    obtain ⟨hb, hk⟩ := Prod.mk.inj (Option.some.inj h₁)
    subst hb hk
    rw [hP1] at h₂
    exact Bool.noConfusion (Prod.mk.inj (Option.some.inj h₂)).1

end Cryptohub
